import Mathlib

/-!
Verification development for a three-stage batch pipeline:
Collector (`Data_collection/fetch_raw_data.py`), Cleaner
(`Data_cleaning/clean_data.py`) and Loader (`Data_load/load_to_db.py`).

The Python sources are shallowly embedded below.  External effects
(HTTP calls, the PostgreSQL connection) are modelled by explicit
outcome values passed in as arguments; pandas/JSON values are modelled
by `Option`-typed cells where `none` plays the role of the missing
value / `NaN` / `None` marker.  Dates and timestamps are modelled at
whole-second granularity as a (day number, second-of-day) pair; the
library date parsers (`datetime.fromisoformat`, `pd.to_datetime`) are
abstracted as parameters producing such values.
-/

/-- A point in time: `day` is a day number (days since an arbitrary
epoch, possibly negative), `sec` the second-of-day offset.  Models a
`datetime` / pandas `Timestamp` at second granularity. -/
structure Timestamp where
  day : Int
  sec : Int
  deriving DecidableEq

/-- Total seconds represented by a `Timestamp`. -/
def tsTotalSec (t : Timestamp) : Int := t.day * 86400 + t.sec

/-! ## Collector (`Data_collection/fetch_raw_data.py`) -/

/-- Outcome of one HTTP call as observed by the Python code:
either the call (or a later `resp.json()` on a 200 body) raises, or it
returns a status code together with the decoded JSON body.
`body = none` models a body on which `resp.json()` raises. -/
inductive Call (β : Type) where
  | raises : Call β
  | returns (status : Int) (body : Option β) : Call β
  deriving DecidableEq

/-- One element of the `genres` array of an appdetails body. -/
structure Genre where
  description : Option String
  deriving DecidableEq

/-- The `price_overview` block of an appdetails body. -/
structure PriceOverview where
  initial : Option Int
  final : Option Int
  deriving DecidableEq

/-- The `release_date` block of an appdetails body. -/
structure RelDate where
  date : Option String
  deriving DecidableEq

/-- The `data` object of one appdetails entry. -/
structure AppData where
  type : Option String
  name : Option String
  release_date : Option RelDate
  price_overview : Option PriceOverview
  is_free : Option Bool
  genres : Option (List Genre)
  deriving DecidableEq

/-- One entry of the appdetails response (keyed by the app id in the
source); `data = none` models a missing/empty `data` object. -/
structure Entry where
  success : Bool
  data : Option AppData
  deriving DecidableEq

/-- Body of an appreviews response. -/
structure Summary where
  total_reviews : Option Int
  total_positive : Option Int
  deriving DecidableEq

/-- The appreviews response with its optional `query_summary` block. -/
structure ReviewBody where
  query_summary : Option Summary
  deriving DecidableEq

/-- The SteamSpy appdetails response with its optional `owners` field. -/
structure OwnersBody where
  owners : Option String
  deriving DecidableEq

/-- Embeds `fetch_app_details` (fetch_raw_data.py:54-74): returns the `data`
object only when the entry succeeded and its type is `"game"`, `none`
otherwise; a raised transport error or undecodable 200 body is an
exception (`Except.error`). -/
def fetch_app_details (c : Call (Option Entry)) : Except Unit (Option AppData) :=
  match c with
  | .raises => .error ()
  | .returns status body =>
    if status ≠ 200 then .ok none
    else
      match body with
      | none => .error ()
      | some entry? =>
        match entry? with
        | none => .ok none
        | some entry =>
          if !entry.success then .ok none
          else
            match entry.data with
            | none => .ok none
            | some d => if d.type = some "game" then .ok (some d) else .ok none

/-- Embeds `fetch_review_summary` (fetch_raw_data.py:77-94): returns the
`query_summary` block or `none` on a non-200 status; raises on a
transport error or undecodable 200 body (no internal handler). -/
def fetch_review_summary (c : Call ReviewBody) : Except Unit (Option Summary) :=
  match c with
  | .raises => .error ()
  | .returns status body =>
    if status ≠ 200 then .ok none
    else
      match body with
      | none => .error ()
      | some rb => .ok rb.query_summary

/-- Python `str.split("..")` on a character list: leftmost,
non-overlapping occurrences of the two-character separator. -/
def splitDD : List Char → List (List Char)
  | [] => [[]]
  | '.' :: '.' :: rest => [] :: splitDD rest
  | c :: rest =>
    match splitDD rest with
    | [] => [[c]]
    | p :: ps => (c :: p) :: ps

/-- Numeric value of a decimal digit list (most significant first). -/
def digitsVal (l : List Char) : Nat :=
  l.foldl (fun a c => 10 * a + (c.toNat - 48)) 0

/-- A nonempty all-digit string parses to its value, anything else
fails.  Models Python `int()` applied to the digit part. -/
def parseDigits (l : List Char) : Option Nat :=
  if l = [] then none
  else if l.all Char.isDigit then some (digitsVal l) else none

/-- Python `int()` on a whitespace-free string: an optional single
sign followed by a nonempty digit run. -/
def parsePyInt (l : List Char) : Option Int :=
  match l with
  | [] => none
  | c :: cs =>
    if c = '+' then (parseDigits cs).map Int.ofNat
    else if c = '-' then (parseDigits cs).map (fun n => -(n : Int))
    else (parseDigits l).map Int.ofNat

/-- The owners-range parsing part of `fetch_owners_proxy`
(fetch_raw_data.py:111-126): strip commas and spaces, split on `".."`,
require exactly two parts, parse both as integers (a `ValueError` from
`int()` is caught and yields `none`), return the floor midpoint
(Python `//`). -/
def parseOwners (o : Option String) : Option Int :=
  match o with
  | none => none
  | some s =>
    if s = "" then none
    else
      let cleaned := s.toList.filter (fun c => !(c = ',' || c = ' '))
      match splitDD cleaned with
      | [p₁, p₂] =>
        match parsePyInt p₁, parsePyInt p₂ with
        | some low, some high => some (Int.fdiv (low + high) 2)
        | _, _ => none
      | _ => none

/-- Embeds `fetch_owners_proxy` (fetch_raw_data.py:97-129): every exception
(transport, JSON decode, parse) is caught internally, so the function
only ever returns an optional integer. -/
def fetch_owners_proxy (c : Call OwnersBody) : Option Int :=
  match c with
  | .raises => none
  | .returns status body =>
    if status ≠ 200 then none
    else
      match body with
      | none => none
      | some ob => parseOwners ob.owners

/-- One raw collected record (the `row` dict of
fetch_raw_data.py:167-181, without the `raw_appdetails` /
`raw_review_summary` debug copies, which later stages ignore).
`snapshot_time` models the ISO-8601 string written by the Collector,
kept in structured form. -/
structure RawRecord where
  app_id : Int
  name : Option String
  release_date : Option String
  original_price_cents : Option Int
  current_price_cents : Option Int
  is_free : Option Bool
  genres : Option (List String)
  total_reviews : Option Int
  positive_reviews : Option Int
  owners_proxy : Option Int
  snapshot_time : Timestamp
  deriving DecidableEq

/-- Embeds `[g.get("description") for g in genres if g.get("description")]`
over `details.get("genres") or []` (fetch_raw_data.py:164-165):
missing and empty descriptions are filtered out by Python truthiness. -/
def genreList (gs : Option (List Genre)) : List String :=
  (gs.getD []).filterMap fun g =>
    match g.description with
    | some d => if d = "" then none else some d
    | none => none

/-- Assembly of one raw record (fetch_raw_data.py:151-181): review
fields come from the optional summary (`if reviews:` guards the dict),
prices from the optional `price_overview` block
(`details.get("price_overview") or {}`). -/
def mkRow (app_id : Int) (snap : Timestamp) (details : AppData)
    (reviews : Option Summary) (owners : Option Int) : RawRecord :=
  { app_id := app_id
    name := details.name
    release_date := details.release_date.bind RelDate.date
    original_price_cents := details.price_overview.bind PriceOverview.initial
    current_price_cents := details.price_overview.bind PriceOverview.final
    is_free := details.is_free
    genres := some (genreList details.genres)
    total_reviews := reviews.bind Summary.total_reviews
    positive_reviews := reviews.bind Summary.total_positive
    owners_proxy := owners
    snapshot_time := snap }

/-- The three per-item endpoint call outcomes for one app id. -/
structure ItemCalls where
  meta : Call (Option Entry)
  review : Call ReviewBody
  owners : Call OwnersBody
  deriving DecidableEq

/-- The body of the per-item loop of `fetch_and_save_raw_data`
(fetch_raw_data.py:145-191).  The whole body runs under
`try: ... except Exception: continue`, so an exception escaping
`fetch_app_details` or `fetch_review_summary` skips the id (`none`);
`fetch_owners_proxy` never raises.  An id whose metadata is absent or
not a game is skipped (`if not details: continue`). -/
def processApp (app_id : Int) (snap : Timestamp) (calls : ItemCalls) : Option RawRecord :=
  match fetch_app_details calls.meta with
  | .error () => none
  | .ok none => none
  | .ok (some details) =>
    match fetch_review_summary calls.review with
    | .error () => none
    | .ok reviews => some (mkRow app_id snap details reviews (fetch_owners_proxy calls.owners))

/-- The collection run of `fetch_and_save_raw_data`
(fetch_raw_data.py:132-196): a fold over the sampled ids accumulating
the successfully merged records, with a fixed run-wide snapshot. -/
def fetch_and_save_raw_data (snap : Timestamp) (app_ids : List Int)
    (net : Int → ItemCalls) : List RawRecord :=
  app_ids.filterMap fun id => processApp id snap (net id)

/-! ## Cleaner (`Data_cleaning/clean_data.py`) -/

/-- One row of the Cleaner's output CSV, in the `final_cols` order of
clean_data.py:66-71.  Prices are exact rationals (cents / 100);
`is_free` is an integer after `astype(int)`. -/
structure CleanRow where
  app_id : Int
  name : Option String
  original_price_usd : Option ℚ
  current_price_usd : Option ℚ
  is_free : Int
  owners_proxy : Option Int
  total_reviews : Option Int
  review_ratio : Option ℚ
  days_since_release : Option Int
  main_genre : String
  release_date : Option String
  deriving DecidableEq

/-- The exceptions `clean_raw_data` can raise past its own handlers. -/
inductive CleanError where
  /-- pandas `KeyError` from `dropna(subset=...)` when the subset
  columns do not exist (empty input gives a zero-column frame). -/
  | keyError
  /-- pandas `IndexError` from `df_clean['snapshot_time'].iloc[0]` on a
  frame with zero rows after filtering (clean_data.py:50). -/
  | indexError
  /-- pandas error from `astype(int)` on a column containing `NaN`
  (clean_data.py:63). -/
  | intCastingNaN
  deriving DecidableEq

/-- The `dropna` filter (clean_data.py:36-39): keep rows where all of
`release_date`, `total_reviews`, `owners_proxy`,
`original_price_cents` are present. -/
def filterDropna (rs : List RawRecord) : List RawRecord :=
  rs.filter fun r =>
    r.release_date.isSome && r.total_reviews.isSome &&
      r.owners_proxy.isSome && r.original_price_cents.isSome

/-- Embeds `MIN_REVIEWS` (clean_data.py:34). -/
def MIN_REVIEWS : Int := 50

/-- Rows surviving both filter steps (clean_data.py:36-40): the
`dropna`, then `total_reviews >= MIN_REVIEWS` (a `NaN` comparison is
falsy in pandas, matching the `none => false` branch). -/
def keptRecords (rs : List RawRecord) : List RawRecord :=
  (filterDropna rs).filter fun r =>
    match r.total_reviews with
    | some n => decide (MIN_REVIEWS ≤ n)
    | none => false

/-- Derivation of one output row (clean_data.py:45-71) given the date
parser `pdDate` (modelling `pd.to_datetime(errors='coerce')`) and the
run snapshot taken from the first kept row.  `days_since_release` is
the pandas `Timedelta.days` of `snapshot_dt - release_dt`, i.e. the
floor of the difference in whole days.  The `total_reviews = 0` branch
of the ratio and the absent `is_free` branch are unreachable for rows
this is applied to (the caller filters to `total_reviews ≥ 50` and
raises before mapping when any kept `is_free` is absent). -/
def toCleanRow (pdDate : String → Option Timestamp) (snap : Timestamp)
    (r : RawRecord) : CleanRow :=
  { app_id := r.app_id
    name := r.name
    original_price_usd := Option.map (fun c : ℤ => (c : ℚ) / 100) r.original_price_cents
    current_price_usd := Option.map (fun c : ℤ => (c : ℚ) / 100) r.current_price_cents
    is_free := match r.is_free with
      | some b => if b then 1 else 0
      | none => 0
    owners_proxy := r.owners_proxy
    total_reviews := r.total_reviews
    review_ratio := match r.positive_reviews, r.total_reviews with
      | some p, some t => if t = 0 then none else some ((p : ℚ) / (t : ℚ))
      | _, _ => none
    days_since_release := match r.release_date with
      | none => none
      | some s =>
        match pdDate s with
        | none => none
        | some rel => some (Int.fdiv (tsTotalSec snap - tsTotalSec rel) 86400)
    main_genre := match r.genres with
      | some (g :: _) => g
      | _ => "Unknown"
    release_date := r.release_date }

/-- Embeds `clean_raw_data` (clean_data.py:7-75) on the in-memory record
sequence: filter, then derive, in the source's evaluation order —
the `dropna` raises `KeyError` on an empty (zero-column) frame, the
snapshot access `iloc[0]` raises `IndexError` when zero rows survive
the filters, and `is_free.astype(int)` raises when any surviving row
has an absent `is_free`; otherwise the kept rows are derived and
projected onto the `final_cols`. -/
def clean_raw_data (pdDate : String → Option Timestamp)
    (rs : List RawRecord) : Except CleanError (List CleanRow) :=
  if rs.isEmpty then .error .keyError
  else
    let kept := keptRecords rs
    match kept with
    | [] => .error .indexError
    | r₀ :: _ =>
      if kept.any fun r => r.is_free.isNone then .error .intCastingNaN
      else .ok (kept.map (toCleanRow pdDate r₀.snapshot_time))

/-! ## Loader (`Data_load/load_to_db.py`) -/

/-- A JSON value as produced by `json.dumps` on the loader's
structures.  `jnan` is Python's `float('nan')` which `json.dumps`
renders as the (non-standard) token `NaN`, distinct from `null`. -/
inductive JVal where
  | null
  | jnum (q : ℚ)
  | jstr (s : String)
  | jbool (b : Bool)
  | jnan
  deriving DecidableEq

/-- One CSV row as read by the Loader: each expected column's cell,
with `none` for an empty cell / `NaN`. -/
structure LoadRow where
  app_id : Option Int
  name : Option String
  original_price_usd : Option ℚ
  current_price_usd : Option ℚ
  is_free : Option Int
  owners_proxy : Option Int
  total_reviews : Option Int
  review_ratio : Option ℚ
  days_since_release : Option Int
  main_genre : Option String
  release_date : Option String
  deriving DecidableEq

/-- The CSV as read by `pd.read_csv`: its header (`df.columns`) and
its rows.  The typed cells model the values of the expected columns
when the header contains them. -/
structure CsvTable where
  cols : List String
  rows : List LoadRow
  deriving DecidableEq

/-- Embeds `expected_cols` (load_to_db.py:62-74). -/
def expectedCols : List String :=
  ["app_id", "name", "original_price_usd", "current_price_usd", "is_free",
   "owners_proxy", "total_reviews", "review_ratio", "days_since_release",
   "main_genre", "release_date"]

/-- Embeds `missing = [c for c in expected_cols if c not in df.columns]`
(load_to_db.py:75). -/
def missingCols (t : CsvTable) : List String :=
  expectedCols.filter fun c => !t.cols.contains c

/-- Embeds `df["is_free"].astype(bool)` on one cell (load_to_db.py:89):
`NaN` coerces to `True`, an integer to its truthiness. -/
def isFreeCoerce (c : Option Int) : Bool :=
  match c with
  | none => true
  | some n => n ≠ 0

/-- A row after the type conversions of load_to_db.py:82-89:
`release_date` parsed to an optional date (day number; `errors="coerce"`
maps failures to `NaT`), `is_free` coerced to boolean. -/
structure TransRow where
  app_id : Option Int
  name : Option String
  original_price_usd : Option ℚ
  current_price_usd : Option ℚ
  is_free : Bool
  owners_proxy : Option Int
  total_reviews : Option Int
  review_ratio : Option ℚ
  days_since_release : Option Int
  main_genre : Option String
  release_date : Option Int
  deriving DecidableEq

/-- Embeds the `genres_json` construction (load_to_db.py:94-96): a one-element
list around `main_genre`, or the empty list when it is `NaN`. -/
def genresJson (main_genre : Option String) : List String :=
  match main_genre with
  | some g => [g]
  | none => []

/-- Embeds `build_raw` (load_to_db.py:99-109): exactly four fields; the two
price fields are nulled via an explicit `pd.isna` check, `main_genre`
is passed through unchanged (an absent value stays the `NaN` marker),
and `is_free` goes through `bool(...)` (already a boolean here after
the `astype(bool)` of line 89), so it is never `null`. -/
def build_raw (row : TransRow) : List (String × JVal) :=
  [("original_price_usd",
      match row.original_price_usd with
      | some q => JVal.jnum q
      | none => JVal.null),
   ("current_price_usd",
      match row.current_price_usd with
      | some q => JVal.jnum q
      | none => JVal.null),
   ("main_genre",
      match row.main_genre with
      | some g => JVal.jstr g
      | none => JVal.jnan),
   ("is_free", JVal.jbool row.is_free)]

/-- The per-row type conversions (load_to_db.py:82-89) with the date
parser `pdDate` modelling `pd.to_datetime(format="%b %d, %Y",
errors="coerce").dt.date` as a day number. -/
def transformRow (pdDate : String → Option Int) (r : LoadRow) : TransRow :=
  { app_id := r.app_id
    name := r.name
    original_price_usd := r.original_price_usd
    current_price_usd := r.current_price_usd
    is_free := isFreeCoerce r.is_free
    owners_proxy := r.owners_proxy
    total_reviews := r.total_reviews
    review_ratio := LoadRow.review_ratio r
    days_since_release := r.days_since_release
    main_genre := r.main_genre
    release_date := r.release_date.bind pdDate }

/-- One tuple appended to `records` (load_to_db.py:191-205), i.e. one
row of the destination `games` table. -/
structure GameRow where
  app_id : Int
  name : Option String
  release_date : Option Int
  original_price : Option ℚ
  current_price : Option ℚ
  review_ratio : Option ℚ
  owners_proxy : Option Int
  days_since_release : Option Int
  is_free : Bool
  main_genre : Option String
  total_reviews : Option Int
  genres_json : List String
  raw_data_json : List (String × JVal)
  deriving DecidableEq

/-- The errors `load_clean_data_to_db` can raise. -/
inductive LoadError where
  /-- A `ValueError` listing the missing columns (load_to_db.py:76-77). -/
  | schemaMismatch (missing : List String)
  /-- A `ValueError`/`TypeError` while building one record tuple, e.g.
  `int(row["app_id"])` on `NaN` (load_to_db.py:192). -/
  | buildError
  /-- A database error raised by the `TRUNCATE` statement. -/
  | dbTruncate
  /-- A database error raised by the batched `INSERT`. -/
  | dbInsert
  /-- A database error raised by `COMMIT`. -/
  | dbCommit
  deriving DecidableEq

/-- Build one record tuple (load_to_db.py:144-206).  All `NaN -> None`
guards are explicit in the source; the only conversion that can raise
on an optional cell is `int(row["app_id"])`, which has no guard. -/
def buildRecord (r : TransRow) : Except LoadError GameRow :=
  match r.app_id with
  | none => .error .buildError
  | some a =>
    .ok { app_id := a
          name := r.name
          release_date := r.release_date
          original_price := r.original_price_usd
          current_price := r.current_price_usd
          review_ratio := TransRow.review_ratio r
          owners_proxy := r.owners_proxy
          days_since_release := r.days_since_release
          is_free := r.is_free
          main_genre := r.main_genre
          total_reviews := r.total_reviews
          genres_json := genresJson r.main_genre
          raw_data_json := build_raw r }

/-- The record-building loop (load_to_db.py:144-206): the first raised
conversion error aborts the loop (inside the transaction). -/
def buildRecords (rs : List TransRow) : Except LoadError (List GameRow) :=
  rs.mapM buildRecord

/-- External failure injection for the three database statements of
the transaction. -/
structure DbFail where
  truncate : Bool
  insert : Bool
  commit : Bool
  deriving DecidableEq

/-- The oracle of a run in which no database statement fails. -/
def dbOk : DbFail := ⟨false, false, false⟩

/-- Observable database-side operations of one `load_clean_data_to_db`
call, in order. -/
inductive DbOp where
  | connect
  | truncate
  | insert (n : Nat)
  | commit
  | rollback
  deriving DecidableEq

deriving instance DecidableEq for Except

/-- Result of one `load_clean_data_to_db` call: the raised error (if
any), the committed contents of the destination table afterwards, and
the ordered database operations performed. -/
structure LoadOutcome where
  result : Except LoadError Unit
  db : List GameRow
  ops : List DbOp
  deriving DecidableEq

/-- Embeds `load_clean_data_to_db` (load_to_db.py:46-219) over a database
whose committed contents are `db`.  Schema validation happens before
any connection is opened; the transaction (truncate, per-row record
construction, batched insert, commit) runs with `autocommit = False`,
so the committed contents change only at `COMMIT`, and the
`except` handler rolls back and re-raises. -/
def load_clean_data_to_db (pdDate : String → Option Int) (t : CsvTable)
    (db : List GameRow) (f : DbFail) : LoadOutcome :=
  let missing := missingCols t
  if missing.isEmpty then
    let trans := t.rows.map (transformRow pdDate)
    if f.truncate then
      { result := .error .dbTruncate, db := db, ops := [.connect, .rollback] }
    else
      match buildRecords trans with
      | .error e =>
        { result := .error e, db := db, ops := [.connect, .truncate, .rollback] }
      | .ok recs =>
        if f.insert then
          { result := .error .dbInsert, db := db
            ops := [.connect, .truncate, .rollback] }
        else if f.commit then
          { result := .error .dbCommit, db := db
            ops := [.connect, .truncate, .insert recs.length, .rollback] }
        else
          { result := .ok (), db := recs
            ops := [.connect, .truncate, .insert recs.length, .commit] }
  else
    { result := .error (.schemaMismatch missing), db := db, ops := [] }

/-- The error raised inside the transaction of a
`load_clean_data_to_db` call (in the order the steps run: truncate,
per-row record construction, insert, commit), or `none` when the
transaction commits. -/
def txError (pdDate : String → Option Int) (t : CsvTable) (f : DbFail) :
    Option LoadError :=
  if f.truncate then some .dbTruncate
  else
    match buildRecords (t.rows.map (transformRow pdDate)) with
    | .error e => some e
    | .ok _ => if f.insert then some .dbInsert
               else if f.commit then some .dbCommit else none

/-! ## Concrete fixtures used by witnesses and counterexamples -/

/-- A date parser mapping every string to absence. -/
def pdNone : String → Option Timestamp := fun _ => none

/-- A date parser mapping every string to the calendar date with day
number 20002 (midnight). -/
def pdDay : String → Option Timestamp := fun _ => some ⟨20002, 0⟩

/-- A run snapshot: day 20000, 01:00:00 into the day. -/
def snapW : Timestamp := ⟨20000, 3600⟩

/-- A fully populated raw record that survives both filter steps. -/
def rGood : RawRecord :=
  { app_id := 10, name := some "G", release_date := some "Nov 16, 2009",
    original_price_cents := some 0, current_price_cents := none,
    is_free := some false, genres := some ["Action"], total_reviews := some 100,
    positive_reviews := some 80, owners_proxy := some 35000,
    snapshot_time := snapW }

/-- Fixture `rGood` with only 10 reviews: dropped by the threshold filter. -/
def rLow : RawRecord := { rGood with total_reviews := some 10 }

/-- Fixture `rGood` with an absent owners estimate: dropped by the `dropna`. -/
def rNoOwners : RawRecord := { rGood with owners_proxy := none }

/-- Fixture `rGood` with an absent `is_free`. -/
def rNoFree : RawRecord := { rGood with is_free := none }

/-- An appdetails `data` object of type `"game"`. -/
def gameData : AppData :=
  { type := some "game", name := some "G",
    release_date := some ⟨some "Nov 16, 2009"⟩,
    price_overview := none, is_free := some false, genres := some [] }

/-- A successful appdetails call reporting `gameData`. -/
def cdGame : Call (Option Entry) := .returns 200 (some (some ⟨true, some gameData⟩))

/-- A loader-side date parser mapping every string to absence. -/
def pdlNone : String → Option Int := fun _ => none

/-- A CSV row with every expected cell populated or deliberately empty. -/
def lr0 : LoadRow :=
  { app_id := some 10, name := some "G", original_price_usd := none,
    current_price_usd := none, is_free := some 0, owners_proxy := some 35000,
    total_reviews := some 100, review_ratio := none,
    days_since_release := some 5, main_genre := some "Action",
    release_date := some "Nov 16, 2009" }

/-- Fixture `lr0` with an empty `app_id` cell: record construction raises. -/
def lrBad : LoadRow := { lr0 with app_id := none }

/-- Fixture `lr0` with `main_genre` and `is_free` both absent. -/
def lrAbsent : LoadRow := { lr0 with main_genre := none, is_free := none }

/-- A CSV with the full expected header. -/
def tGood : CsvTable := ⟨expectedCols, [lr0]⟩

/-- A CSV whose second row breaks record construction. -/
def tBadRow : CsvTable := ⟨expectedCols, [lr0, lrBad]⟩

/-- A CSV missing most expected columns. -/
def tMissing : CsvTable := ⟨["app_id", "name"], [lr0]⟩

/-- A pre-existing destination table row. -/
def g0 : GameRow :=
  { app_id := 99, name := none, release_date := none, original_price := none,
    current_price := none, review_ratio := none, owners_proxy := none,
    days_since_release := none, is_free := false, main_genre := none,
    total_reviews := none, genres_json := [], raw_data_json := [] }

/-! ## Helper lemmas -/

/-- Floor division of a shifted whole-day difference: when the
subtrahend is a midnight timestamp, flooring the timestamp difference
agrees with truncating the minuend to its day. -/
theorem fdiv_day_shift (a b s : Int) (h0 : 0 ≤ s) (h1 : s < 86400) :
    Int.fdiv (a * 86400 + s - b * 86400) 86400 = a - b := by
  set x : Int := a * 86400 + s - b * 86400 with hx
  have hf := Int.fdiv_add_fmod x 86400
  have hr0 : 0 ≤ x.fmod 86400 := Int.fmod_nonneg' x (by norm_num)
  have hr1 : x.fmod 86400 < 86400 := Int.fmod_lt_of_pos x (by norm_num)
  omega

/-- The split `splitDD` never produces an empty list of parts. -/
theorem splitDD_ne_nil : ∀ l : List Char, splitDD l ≠ []
  | [] => by simp [splitDD]
  | '.' :: '.' :: _ => by simp [splitDD]
  | c :: rest => by
    rw [splitDD.eq_def]
    split
    · simp
    · simp
    · split <;> simp

/-- A list with no dots is a single part. -/
theorem splitDD_no_dots : ∀ l : List Char, (∀ c ∈ l, c ≠ '.') → splitDD l = [l]
  | [], _ => rfl
  | c :: rest, h => by
    have hc : c ≠ '.' := h c (List.mem_cons_self c rest)
    have hrest := splitDD_no_dots rest fun x hx => h x (List.mem_cons_of_mem c hx)
    rw [splitDD.eq_def]
    split
    · rename_i heq
      exact absurd heq (by simp)
    · rename_i heq
      injection heq with h1 _
      exact absurd h1 hc
    · rename_i heq
      injection heq with h1 h2
      subst h1; subst h2
      rw [hrest]

/-- Splitting a list whose prefix before the first `".."` has no dots
peels off that prefix as the first part. -/
theorem splitDD_append : ∀ xs ys : List Char, (∀ c ∈ xs, c ≠ '.') →
    splitDD (xs ++ '.' :: '.' :: ys) = xs :: splitDD ys
  | [], ys, _ => by simp [splitDD]
  | c :: xs, ys, h => by
    have hc : c ≠ '.' := h c (List.mem_cons_self c xs)
    have ih := splitDD_append xs ys fun x hx => h x (List.mem_cons_of_mem c hx)
    rw [List.cons_append, splitDD.eq_def]
    split
    · rename_i heq
      exact absurd heq (by simp)
    · rename_i heq
      injection heq with h1 _
      exact absurd h1 hc
    · rename_i heq
      injection heq with h1 h2
      subst h1
      rw [← h2, ih]

/-- A decimal digit is not a sign character and not a dot. -/
theorem digit_ne_signs (c : Char) (h : c.isDigit = true) :
    c ≠ '+' ∧ c ≠ '-' ∧ c ≠ '.' :=
  ⟨fun he => absurd h (by subst he; decide),
   fun he => absurd h (by subst he; decide),
   fun he => absurd h (by subst he; decide)⟩

/-- Parsing `parseDigits` succeeds with the numeric value on a nonempty
all-digit list. -/
theorem parseDigits_digits (l : List Char) (h1 : l ≠ [])
    (h2 : l.all Char.isDigit = true) : parseDigits l = some (digitsVal l) := by
  unfold parseDigits
  rw [if_neg h1, if_pos h2]

/-- Parsing `parsePyInt` succeeds with the numeric value on a nonempty
all-digit list. -/
theorem parsePyInt_digits (l : List Char) (h1 : l ≠ [])
    (h2 : l.all Char.isDigit = true) :
    parsePyInt l = some (digitsVal l : ℤ) := by
  cases l with
  | nil => exact absurd rfl h1
  | cons c cs =>
    have hcd : c.isDigit = true := by
      rw [List.all_cons, Bool.and_eq_true] at h2
      exact h2.1
    obtain ⟨hp, hm, -⟩ := digit_ne_signs c hcd
    simp only [parsePyInt]
    rw [if_neg hp, if_neg hm, parseDigits_digits _ h1 h2]
    rfl

/-- Membership in the Cleaner's kept rows, characterised: the record
is an input record, the four `dropna` columns are present, and the
review count meets the threshold. -/
theorem mem_keptRecords (rs : List RawRecord) (r : RawRecord) :
    r ∈ keptRecords rs ↔
      r ∈ rs ∧ r.release_date.isSome = true ∧ r.owners_proxy.isSome = true ∧
        r.original_price_cents.isSome = true ∧
        ∃ n, r.total_reviews = some n ∧ MIN_REVIEWS ≤ n := by
  unfold keptRecords filterDropna
  rw [List.mem_filter, List.mem_filter]
  constructor
  · rintro ⟨⟨hmem, hb⟩, ht⟩
    simp only [Bool.and_eq_true] at hb
    rcases htr : r.total_reviews with _ | n
    · rw [htr] at ht
      exact absurd ht (by simp)
    · rw [htr] at ht
      exact ⟨hmem, hb.1.1.1, hb.1.2, hb.2, n, rfl, of_decide_eq_true ht⟩
  · rintro ⟨hmem, h1, h2, h3, n, hn, hge⟩
    refine ⟨⟨hmem, ?_⟩, ?_⟩
    · simp only [Bool.and_eq_true]
      exact ⟨⟨⟨h1, by rw [hn]; rfl⟩, h2⟩, h3⟩
    · rw [hn]
      exact decide_eq_true hge

/-- Elimination form of a successful `clean_raw_data` run: the kept
rows are nonempty, the snapshot is the first kept row's, and the
output is the image of the kept rows under the derivation. -/
theorem clean_raw_data_ok_elim (pdDate : String → Option Timestamp)
    (rs : List RawRecord) (rows : List CleanRow)
    (hok : clean_raw_data pdDate rs = .ok rows) :
    ∃ r₀ tl, keptRecords rs = r₀ :: tl ∧ r₀ ∈ rs ∧
      rows = (keptRecords rs).map (toCleanRow pdDate r₀.snapshot_time) := by
  simp only [clean_raw_data] at hok
  by_cases he : rs.isEmpty = true
  · rw [if_pos he] at hok
    exact absurd hok (by simp)
  · rw [if_neg he] at hok
    rcases hk : keptRecords rs with _ | ⟨r₀, tl⟩
    · rw [hk] at hok
      exact absurd hok (by simp)
    · rw [hk] at hok
      have hok' : (if ((r₀ :: tl).any fun r => r.is_free.isNone) = true
          then Except.error CleanError.intCastingNaN
          else Except.ok (List.map (toCleanRow pdDate r₀.snapshot_time) (r₀ :: tl)))
          = Except.ok rows := hok
      by_cases ha : (r₀ :: tl).any (fun r => r.is_free.isNone) = true
      · rw [if_pos ha] at hok'
        exact absurd hok' (by simp)
      · rw [if_neg ha] at hok'
        have hr₀ : r₀ ∈ keptRecords rs := hk ▸ List.mem_cons_self r₀ tl
        refine ⟨r₀, tl, rfl, ((mem_keptRecords rs r₀).1 hr₀).1, ?_⟩
        exact (by injection hok' with h; exact h.symm)

/-! ## Claim theorems -/

/-- C5: `fetch_owners_proxy`, given an owners range string of the form
`"<low>..<high>"` with optional thousands separators (commas) and
spaces (any string whose comma/space-stripped form is a digit run,
`".."`, a digit run), returns the integer midpoint of the two bounds;
it returns absence when the string is missing or does not split and
parse as exactly two integers around `".."`. -/
theorem fetch_owners_proxy_spec (s : String) (ds₁ ds₂ : List Char)
    (h : s.toList.filter (fun c => !(c = ',' || c = ' ')) = ds₁ ++ '.' :: '.' :: ds₂)
    (h₁ : ds₁ ≠ [] ∧ ds₁.all Char.isDigit = true)
    (h₂ : ds₂ ≠ [] ∧ ds₂.all Char.isDigit = true) :
    fetch_owners_proxy (.returns 200 (some ⟨some s⟩)) =
      some (((digitsVal ds₁ + digitsVal ds₂) / 2 : ℕ) : ℤ) ∧
    fetch_owners_proxy (.returns 200 (some ⟨none⟩)) = none ∧
    (∀ t : String,
      (splitDD (t.toList.filter (fun c => !(c = ',' || c = ' ')))).length ≠ 2 →
      fetch_owners_proxy (.returns 200 (some ⟨some t⟩)) = none) ∧
    (∀ (t : String) (p₁ p₂ : List Char),
      splitDD (t.toList.filter (fun c => !(c = ',' || c = ' '))) = [p₁, p₂] →
      parsePyInt p₁ = none ∨ parsePyInt p₂ = none →
      fetch_owners_proxy (.returns 200 (some ⟨some t⟩)) = none) := by
  refine ⟨?_, rfl, ?_, ?_⟩
  · have hs : s ≠ "" := by
      intro he
      rw [he] at h
      exact absurd h (by simp)
    have hnd₁ : ∀ c ∈ ds₁, c ≠ '.' := fun c hc =>
      (digit_ne_signs c (by
        rw [List.all_eq_true] at *
        exact h₁.2 c hc)).2.2
    have hnd₂ : ∀ c ∈ ds₂, c ≠ '.' := fun c hc =>
      (digit_ne_signs c (by
        rw [List.all_eq_true] at *
        exact h₂.2 c hc)).2.2
    show parseOwners (some s) = _
    simp only [parseOwners]
    rw [if_neg hs]
    simp only [h, splitDD_append ds₁ ds₂ hnd₁, splitDD_no_dots ds₂ hnd₂,
      parsePyInt_digits ds₁ h₁.1 h₁.2, parsePyInt_digits ds₂ h₂.1 h₂.2]
    have hcast : ((digitsVal ds₁ : ℤ) + (digitsVal ds₂ : ℤ)) =
        ((digitsVal ds₁ + digitsVal ds₂ : ℕ) : ℤ) := by push_cast; ring
    rw [hcast]
    exact congrArg some ((Int.ofNat_fdiv _ 2).symm)
  · intro t hlen
    show parseOwners (some t) = none
    simp only [parseOwners]
    by_cases ht : t = ""
    · rw [if_pos ht]
    · rw [if_neg ht]
      rcases hsp : splitDD (t.toList.filter (fun c => !(c = ',' || c = ' '))) with
        _ | ⟨a, _ | ⟨b, _ | _⟩⟩
      · rfl
      · rfl
      · exact absurd (by rw [hsp]; rfl) hlen
      · rfl
  · intro t p₁ p₂ hsp hpar
    show parseOwners (some t) = none
    simp only [parseOwners]
    by_cases ht : t = ""
    · rw [if_pos ht]
    · rw [if_neg ht, hsp]
      rcases hpar with he | he
      · simp only [he]
      · simp only [he]
        cases parsePyInt p₁ <;> rfl

/-- Witness for C5: the spec's Scenario C input `"20,000..50,000"`
yields the midpoint `35000`. -/
theorem fetch_owners_proxy_spec_witness :
    fetch_owners_proxy (.returns 200 (some ⟨some "20,000..50,000"⟩)) =
      some 35000 := by
  have h := fetch_owners_proxy_spec "20,000..50,000"
    ['2', '0', '0', '0', '0'] ['5', '0', '0', '0', '0']
    (by decide) (by decide) (by decide)
  exact h.1.trans (by decide)

/-- C2: every row of a successful Cleaner output has `release_date`,
`total_reviews`, `owners_proxy` (owners_estimate) and the price column
non-absent with `total_reviews ≥ 50`; every input record missing any
of the four `dropna` fields, and every record with fewer than 50
reviews, is excluded from the kept rows the output is the image of. -/
theorem clean_raw_data_filter (pdDate : String → Option Timestamp)
    (rs : List RawRecord) (rows : List CleanRow)
    (hok : clean_raw_data pdDate rs = .ok rows) :
    (∀ row ∈ rows, row.release_date.isSome = true ∧
      row.owners_proxy.isSome = true ∧ row.original_price_usd.isSome = true ∧
      ∃ n, row.total_reviews = some n ∧ 50 ≤ n) ∧
    (∀ r ∈ rs, (r.release_date = none ∨ r.total_reviews = none ∨
      r.owners_proxy = none ∨ r.original_price_cents = none) →
      r ∉ keptRecords rs) ∧
    (∀ r ∈ rs, ∀ n : ℤ, r.total_reviews = some n → n < 50 →
      r ∉ keptRecords rs) ∧
    (∃ snap, rows = (keptRecords rs).map (toCleanRow pdDate snap)) := by
  obtain ⟨r₀, tl, hk, -, hrows⟩ := clean_raw_data_ok_elim pdDate rs rows hok
  refine ⟨?_, ?_, ?_, r₀.snapshot_time, hrows⟩
  · intro row hrow
    rw [hrows] at hrow
    obtain ⟨src, hsrc, hmap⟩ := List.mem_map.1 hrow
    obtain ⟨-, h1, h2, h3, n, hn, hge⟩ := (mem_keptRecords rs src).1 hsrc
    subst hmap
    refine ⟨h1, h2, ?_, n, ?_, hge⟩
    · rcases Option.isSome_iff_exists.1 h3 with ⟨v, hv⟩
      show (Option.map (fun c : ℤ => (c : ℚ) / 100) src.original_price_cents).isSome = true
      rw [hv]
      rfl
    · exact hn
  · intro r hr hnone hkept
    obtain ⟨-, h1, h2, h3, n, hn, -⟩ := (mem_keptRecords rs r).1 hkept
    rcases hnone with h | h | h | h
    · rw [h] at h1; exact absurd h1 (by simp)
    · rw [hn] at h; exact absurd h (by simp)
    · rw [h] at h2; exact absurd h2 (by simp)
    · rw [h] at h3; exact absurd h3 (by simp)
  · intro r hr n hn hlt hkept
    obtain ⟨-, -, -, -, m, hm, hge⟩ := (mem_keptRecords rs r).1 hkept
    rw [hn] at hm
    injection hm with hm
    subst hm
    revert hge
    simp only [MIN_REVIEWS]
    omega

/-- Witness for C2: in a concrete run, the record with 10 reviews and
the record with an absent owners estimate are both excluded. -/
theorem clean_raw_data_filter_witness :
    rLow ∉ keptRecords [rGood, rLow, rNoOwners] ∧
    rNoOwners ∉ keptRecords [rGood, rLow, rNoOwners] := by
  have h := clean_raw_data_filter pdNone [rGood, rLow, rNoOwners]
    ((keptRecords [rGood, rLow, rNoOwners]).map (toCleanRow pdNone snapW)) rfl
  exact ⟨h.2.2.1 rLow (by decide) 10 (by decide) (by decide),
    h.2.1 rNoOwners (by decide) (by decide)⟩

/-- C3 (divergence, code bug): on an empty input sequence
`clean_raw_data` raises (pandas `KeyError` from `dropna` on a
zero-column frame), and on an input whose rows are all filtered out it
raises (`IndexError` from `df_clean['snapshot_time'].iloc[0]`),
instead of succeeding with an empty dataset as specified. -/
theorem clean_raw_data_empty_raises :
    clean_raw_data pdNone [] = .error .keyError ∧
    clean_raw_data pdNone [rLow] = .error .indexError := by decide

/-- C7: for every retained row, `days_since_release` is the whole
number of days between the run snapshot with its time-of-day truncated
and the parsed release date (a midnight timestamp): unparseable
release strings yield absence, and the difference of day numbers —
negative when the release date lies after the snapshot — is preserved
as is. -/
theorem clean_days_since_release (pdDate : String → Option Timestamp)
    (rs : List RawRecord) (rows : List CleanRow) (snap : Timestamp)
    (hsec : 0 ≤ snap.sec ∧ snap.sec < 86400)
    (hsnap : ∀ r ∈ rs, r.snapshot_time = snap)
    (hok : clean_raw_data pdDate rs = .ok rows)
    (row : CleanRow) (hrow : row ∈ rows) :
    ∃ s, row.release_date = some s ∧
      (pdDate s = none → row.days_since_release = none) ∧
      (∀ d : ℤ, pdDate s = some ⟨d, 0⟩ →
        row.days_since_release = some (snap.day - d)) := by
  obtain ⟨r₀, tl, hk, hr₀, hrows⟩ := clean_raw_data_ok_elim pdDate rs rows hok
  rw [hrows] at hrow
  obtain ⟨src, hsrc, hmap⟩ := List.mem_map.1 hrow
  obtain ⟨hsrcmem, h1, -, -, -⟩ := (mem_keptRecords rs src).1 hsrc
  obtain ⟨s, hs⟩ := Option.isSome_iff_exists.1 h1
  have hsnap₀ : r₀.snapshot_time = snap := hsnap r₀ hr₀
  subst hmap
  refine ⟨s, ?_, ?_, ?_⟩
  · exact hs
  · intro hparse
    simp only [toCleanRow, hs, hparse]
  · intro d hparse
    simp only [toCleanRow, hs, hparse, hsnap₀]
    have harith : tsTotalSec snap - tsTotalSec ⟨d, 0⟩ =
        snap.day * 86400 + snap.sec - d * 86400 := by
      simp [tsTotalSec]
    rw [harith, fdiv_day_shift snap.day d snap.sec hsec.1 hsec.2]

/-- Witness for C7: a record released two days after the snapshot day
gets `days_since_release = -2`, negative and preserved. -/
theorem clean_days_since_release_witness :
    ∃ s, (toCleanRow pdDay snapW rGood).release_date = some s ∧
      (pdDay s = none →
        (toCleanRow pdDay snapW rGood).days_since_release = none) ∧
      (∀ d : ℤ, pdDay s = some ⟨d, 0⟩ →
        (toCleanRow pdDay snapW rGood).days_since_release =
          some (snapW.day - d)) := by
  have h := clean_days_since_release pdDay [rGood]
    ((keptRecords [rGood]).map (toCleanRow pdDay snapW)) snapW
    (by decide) (by decide) rfl
    (toCleanRow pdDay snapW rGood) (List.mem_cons_self _ _)
  exact h

/-- C10: the Cleaner emits `is_free` as the integer 0 or 1, and when
any record surviving the filter step has `is_free` absent,
`clean_raw_data` raises (`astype(int)` on `NaN`) instead of mapping
the value to absence. -/
theorem clean_is_free_int (pdDate : String → Option Timestamp)
    (rs : List RawRecord) :
    (∀ rows, clean_raw_data pdDate rs = .ok rows →
      ∀ row ∈ rows, row.is_free = 0 ∨ row.is_free = 1) ∧
    ((∃ r ∈ keptRecords rs, r.is_free = none) →
      clean_raw_data pdDate rs = .error .intCastingNaN) := by
  constructor
  · intro rows hok row hrow
    obtain ⟨r₀, tl, hk, -, hrows⟩ := clean_raw_data_ok_elim pdDate rs rows hok
    rw [hrows] at hrow
    obtain ⟨src, -, hmap⟩ := List.mem_map.1 hrow
    subst hmap
    rcases hfree : src.is_free with _ | b
    · exact Or.inl (by simp [toCleanRow, hfree])
    · cases b
      · exact Or.inl (by simp [toCleanRow, hfree])
      · exact Or.inr (by simp [toCleanRow, hfree])
  · rintro ⟨r, hr, hfree⟩
    have hne : rs ≠ [] := by
      intro he
      rw [he] at hr
      simp [keptRecords, filterDropna] at hr
    have hmem : r ∈ rs := ((mem_keptRecords rs r).1 hr).1
    simp only [clean_raw_data]
    rw [if_neg (by simp [List.isEmpty_iff, hne])]
    rcases hk : keptRecords rs with _ | ⟨r₀, tl⟩
    · rw [hk] at hr
      exact absurd hr (by simp)
    · have ha : ((r₀ :: tl).any fun x => x.is_free.isNone) = true := by
        rw [List.any_eq_true]
        exact ⟨r, hk ▸ hr, by rw [hfree]; rfl⟩
      show (if ((r₀ :: tl).any fun x => x.is_free.isNone) = true
        then Except.error CleanError.intCastingNaN
        else Except.ok (List.map (toCleanRow pdDate r₀.snapshot_time) (r₀ :: tl)))
        = Except.error CleanError.intCastingNaN
      rw [if_pos ha]

/-- Witness for C10: a concrete run whose only kept record lacks
`is_free` raises the integer-cast error. -/
theorem clean_is_free_int_witness :
    clean_raw_data pdNone [rNoFree] = .error .intCastingNaN :=
  (clean_is_free_int pdNone [rNoFree]).2 ⟨rNoFree, by decide, rfl⟩

/-- C1: when any step of the Loader's transaction raises (truncate,
per-row record construction, insert, or commit), the destination
table keeps exactly its pre-call contents, the same error is re-raised
to the caller, and the rollback is the last database operation. -/
theorem load_rollback (pdDate : String → Option Int) (t : CsvTable)
    (db : List GameRow) (f : DbFail) (e : LoadError)
    (hschema : missingCols t = [])
    (hfail : txError pdDate t f = some e) :
    (load_clean_data_to_db pdDate t db f).db = db ∧
    (load_clean_data_to_db pdDate t db f).result = .error e ∧
    (load_clean_data_to_db pdDate t db f).ops.getLast? = some .rollback := by
  rcases f with ⟨ft, fi, fc⟩
  cases ft <;> cases fi <;> cases fc <;>
    rcases hb : buildRecords (t.rows.map (transformRow pdDate)) with e' | recs <;>
    simp_all [load_clean_data_to_db, txError, hschema]

/-- Witness for C1: a run whose second row has an empty `app_id` cell
fails during record construction; the pre-existing table row survives
and the build error is re-raised after the rollback. -/
theorem load_rollback_witness :
    (load_clean_data_to_db pdlNone tBadRow [g0] dbOk).db = [g0] ∧
    (load_clean_data_to_db pdlNone tBadRow [g0] dbOk).result =
      .error .buildError ∧
    (load_clean_data_to_db pdlNone tBadRow [g0] dbOk).ops.getLast? =
      some .rollback :=
  load_rollback pdlNone tBadRow [g0] dbOk .buildError (by decide) (by decide)

/-- C6: when required CleanRow columns are absent from the CSV header,
the Loader fails fast with a schema-mismatch error listing exactly the
missing expected columns; the table is untouched and no database
operation (connection, truncate, insert) is attempted. -/
theorem load_schema_mismatch (pdDate : String → Option Int) (t : CsvTable)
    (db : List GameRow) (f : DbFail)
    (hmiss : missingCols t ≠ []) :
    (load_clean_data_to_db pdDate t db f).result =
      .error (.schemaMismatch (missingCols t)) ∧
    (load_clean_data_to_db pdDate t db f).db = db ∧
    (load_clean_data_to_db pdDate t db f).ops = [] ∧
    (∀ c, c ∈ missingCols t ↔ (c ∈ expectedCols ∧ c ∉ t.cols)) := by
  have hempty : (missingCols t).isEmpty = false := by
    rcases h : missingCols t with _ | ⟨a, l⟩
    · exact absurd h hmiss
    · rfl
  refine ⟨?_, ?_, ?_, ?_⟩
  · simp [load_clean_data_to_db, hempty]
  · simp [load_clean_data_to_db, hempty]
  · simp [load_clean_data_to_db, hempty]
  · intro c
    simp [missingCols, List.mem_filter]

/-- Witness for C6: a header with only `app_id` and `name` triggers
the schema error, leaves the table as it was and performs no database
operation. -/
theorem load_schema_mismatch_witness :
    (load_clean_data_to_db pdlNone tMissing [g0] dbOk).result =
      .error (.schemaMismatch (missingCols tMissing)) ∧
    (load_clean_data_to_db pdlNone tMissing [g0] dbOk).db = [g0] ∧
    (load_clean_data_to_db pdlNone tMissing [g0] dbOk).ops = [] := by
  have h := load_schema_mismatch pdlNone tMissing [g0] dbOk (by decide)
  exact ⟨h.1, h.2.1, h.2.2.1⟩

/-- C8 counterexample: for a row whose `main_genre` and `is_free` are
both absent, `build_raw` does not null those two fields — the genre is
carried through as the `NaN` marker and `is_free` becomes the boolean
`true` — so the claim that each of the four fields is independently
null when absent fails. -/
theorem build_raw_nulling_counterexample :
    build_raw (transformRow pdlNone lrAbsent) =
      [("original_price_usd", .null), ("current_price_usd", .null),
       ("main_genre", .jnan), ("is_free", .jbool true)] ∧
    JVal.jnan ≠ JVal.null ∧ JVal.jbool true ≠ JVal.null := by decide

/-- C8 (amended): for every row the Loader persists, `genres_json` is
the one-element list around `main_genre` (empty when absent) and
`raw_data_json` has exactly the four fields `original_price_usd`,
`current_price_usd`, `main_genre`, `is_free`, where the two price
fields are independently nulled when absent, an absent `main_genre` is
carried through as the `NaN` marker (not `null`), and `is_free` is
coerced to a boolean (an absent cell becomes `true`, never `null`). -/
theorem build_raw_fields (pdDate : String → Option Int) (row : LoadRow) :
    genresJson (transformRow pdDate row).main_genre =
      (match row.main_genre with | some s => [s] | none => []) ∧
    build_raw (transformRow pdDate row) =
      [("original_price_usd",
          match row.original_price_usd with
          | some q => JVal.jnum q
          | none => JVal.null),
       ("current_price_usd",
          match row.current_price_usd with
          | some q => JVal.jnum q
          | none => JVal.null),
       ("main_genre",
          match row.main_genre with
          | some s => JVal.jstr s
          | none => JVal.jnan),
       ("is_free", JVal.jbool (isFreeCoerce row.is_free))] := by
  constructor
  · cases hm : row.main_genre <;> simp [genresJson, transformRow, hm]
  · simp [build_raw, transformRow]

/-- C9: running the Loader twice in succession with the same CleanRow
dataset leaves the destination table with the same contents as running
it once — the full-replace transaction is idempotent. -/
theorem load_idempotent (pdDate : String → Option Int) (t : CsvTable)
    (db : List GameRow) :
    (load_clean_data_to_db pdDate t
        (load_clean_data_to_db pdDate t db dbOk).db dbOk).db =
      (load_clean_data_to_db pdDate t db dbOk).db := by
  by_cases he : (missingCols t).isEmpty = true
  · simp only [load_clean_data_to_db, he, if_true, dbOk]
    rcases hb : buildRecords (t.rows.map (transformRow pdDate)) with e | recs <;>
      simp [hb]
  · simp [load_clean_data_to_db, he]

/-- C4 counterexample: an id whose metadata call reports a valid
`"game"` item is nonetheless dropped — no record at all — when the
review-summary call raises (the per-item handler skips the whole id),
contradicting the claim that review-summary failures only degrade
fields. -/
theorem collector_review_drop_counterexample :
    fetch_app_details cdGame = .ok (some gameData) ∧
    processApp 7 snapW
      ⟨cdGame, .raises, .returns 200 (some ⟨some "20,000..50,000"⟩)⟩ = none ∧
    fetch_and_save_raw_data snapW [7]
      (fun _ => ⟨cdGame, .raises, .returns 200 (some ⟨some "20,000..50,000"⟩)⟩) =
      [] := by decide

/-- C4 (amended): an id produces a record exactly when its metadata
call returns a `"game"` item without raising and its review-summary
call returns without raising; a review-summary call that merely
reports failure (non-200) only degrades the review fields to absence,
and owner-estimate failures of any kind (including raised exceptions)
only degrade `owners_proxy`, never dropping the record.  Ids whose
metadata is absent, not of type `"game"`, or whose metadata or
review-summary call raises, produce no record at all. -/
theorem collector_degrade_spec (id : Int) (snap : Timestamp) (calls : ItemCalls) :
    (∀ d, fetch_app_details calls.meta = .ok (some d) →
      ∀ rv, fetch_review_summary calls.review = .ok rv →
        processApp id snap calls =
          some (mkRow id snap d rv (fetch_owners_proxy calls.owners))) ∧
    (fetch_app_details calls.meta = .ok none → processApp id snap calls = none) ∧
    (fetch_app_details calls.meta = .error () → processApp id snap calls = none) ∧
    (fetch_review_summary calls.review = .error () →
      processApp id snap calls = none) ∧
    (∀ (ids : List Int) (net : Int → ItemCalls) (r : RawRecord),
      id ∈ ids → net id = calls → processApp id snap calls = some r →
      r ∈ fetch_and_save_raw_data snap ids net) := by
  refine ⟨?_, ?_, ?_, ?_, ?_⟩
  · intro d hd rv hrv
    simp [processApp, hd, hrv]
  · intro h
    simp [processApp, h]
  · intro h
    simp [processApp, h]
  · intro h
    rcases hm : fetch_app_details calls.meta with u | md
    · cases u
      simp [processApp, hm]
    · rcases md with _ | d
      · simp [processApp, hm]
      · simp [processApp, hm, h]
  · intro ids net r hid hnet hsome
    exact List.mem_filterMap.2 ⟨id, hid, by rw [hnet, hsome]⟩

/-- Witness for C4 (amended): a game whose review call reports a
server error (status 500) and whose owner call raises still yields a
record, with the review and owner fields degraded to absence. -/
theorem collector_degrade_spec_witness :
    processApp 7 snapW ⟨cdGame, .returns 500 none, .raises⟩ =
      some (mkRow 7 snapW gameData none none) := by
  have h := collector_degrade_spec 7 snapW ⟨cdGame, .returns 500 none, .raises⟩
  exact h.1 gameData (by decide) none (by decide)
